import Mathlib

/-!
Shallow embedding of the soft-kill interception subsystem of
src/ext/drx/drx.c (the drx extension library).

Pure Lean functions model the C functions.  External DynamoRIO facilities
(handle/pid conversion, job member enumeration, safe memory access,
syscall/event registration) are modelled as explicit environment records
of functions, and the side effects a mediation step performs (callback
fan-out invocations, emulated NtTerminateProcess calls,
dr_syscall_set_result, dr_safe_write) are collected in an explicit effect
trace, in program order.

Subscriber callbacks are modelled by an identifier (Nat) together with a
behaviour function beh : id -> pid -> exit_code -> Bool giving the value
each callback returns; memory that the app passes by reference is a
partial map from locations to 32-bit words, where the tracked location of
a JOBOBJECT_EXTENDED_LIMIT_INFORMATION argument is the address of its
BasicLimitInformation.LimitFlags field (the only field drx.c reads or
writes through the pointer).
-/

namespace Drx

/-- Truncation of a machine word to a signed 32-bit value, modelling the C
casts to int, LONG and NTSTATUS that drx.c applies to raw syscall
parameters. -/
def toInt32 (n : Nat) : Int :=
  let m : Nat := n % 2 ^ 32
  if m < 2 ^ 31 then (m : Int) else (m : Int) - 2 ^ 32

/-- Observable side effects of the mediation code, recorded in program
order: a full callback fan-out (soft_kills_invoke_cbs) for a target pid
and exit code, an emulated NtTerminateProcess on a process handle, a
dr_syscall_set_result, and a dr_safe_write of a 32-bit word. -/
inductive Effect where
  | invokeCbs (pid : Nat) (exit_code : Int)
  | terminate (handle : Nat) (exit_code : Int)
  | setResult (value : Nat)
  | safeWrite (loc : Nat) (value : Nat)
  deriving DecidableEq

/-! ## Callback registry (drx.c lines 406-435, 935-941) -/

/-- The loop body of soft_kills_invoke_cbs: walk the callback list,
calling every entry (the call is the left operand of the C disjunction
`skip = e->cb(pid, exit_code) || skip`, so it is evaluated
unconditionally), and accumulate the disjunction of the results.  Returns
the invocation trace (callback ids in call order) and the final skip
flag. -/
def invoke_cbs_loop (beh : Nat → Nat → Int → Bool) (pid : Nat) (exit_code : Int) :
    List Nat → Bool → List Nat × Bool
  | [], skip => ([], skip)
  | e :: rest, skip =>
    let r := beh e pid exit_code
    let res := invoke_cbs_loop beh pid exit_code rest (r || skip)
    (e :: res.1, res.2)

/-- soft_kills_invoke_cbs (drx.c lines 423-435): invoke every callback in
cb_list order, OR-ing the results, starting from skip = false. -/
def soft_kills_invoke_cbs (beh : Nat → Nat → Int → Bool) (cb_list : List Nat)
    (pid : Nat) (exit_code : Int) : List Nat × Bool :=
  invoke_cbs_loop beh pid exit_code cb_list false

/-- The registry mutation performed by drx_register_soft_kills (drx.c
lines 938-941): the new entry is pushed on the front of cb_list. -/
def register_cb (cb : Nat) (cb_list : List Nat) : List Nat :=
  cb :: cb_list

/-- Registering a sequence of callbacks one after the other, starting from
the empty registry, in the order given. -/
def register_all (regs : List Nat) : List Nat :=
  regs.foldl (fun acc cb => register_cb cb acc) []

/-! ## Windows mediation model (drx.c lines 437-766) -/

/-- Model syscall numbers: the four watched syscalls resolve to four
distinct numbers at activation time. -/
def sysnum_TerminateProcess : Nat := 0

def sysnum_TerminateJobObject : Nat := 1

def sysnum_SetInformationJobObject : Nat := 2

def sysnum_Close : Nat := 3

/-- JOBOBJECTINFOCLASS value JobObjectExtendedLimitInformation. -/
def JobObjectExtendedLimitInformation : Nat := 9

def JOB_OBJECT_LIMIT_KILL_ON_JOB_CLOSE : Nat := 0x2000

/-- sizeof(JOBOBJECT_EXTENDED_LIMIT_INFORMATION) on 64-bit Windows. -/
def sizeof_JOBOBJECT_EXTENDED_LIMIT_INFORMATION : Nat := 144

/-- Per-context (CLS) state carried from pre- to post-syscall: the
original LimitFlags word and the patched location, cls->job_limit_flags_loc
being NULL modelled as none (drx.c lines 468-471). -/
structure cls_soft_t where
  job_limit_flags_orig : Nat
  job_limit_flags_loc : Option Nat
  deriving DecidableEq

/-- Mutable state touched by the Windows mediation code: the CLS record,
the job hashtable (a duplicate-free list of handles), and app memory,
a partial map from LimitFlags locations to 32-bit words. -/
structure SKState where
  cls : cls_soft_t
  job_table : List Nat
  mem : Nat → Option Nat

/-- External DynamoRIO / ntdll facilities consumed by the mediation code.
Resolution failures (INVALID_PROCESS_ID, INVALID_HANDLE_VALUE, a failing
NtQueryInformationJobObject or NtQueryInformationProcess) are modelled as
none / -1 exactly where the C checks them. -/
structure Env where
  process_id : Nat
  convert_handle_to_pid : Nat → Option Nat
  convert_pid_to_handle : Nat → Option Nat
  num_job_object_pids : Nat → Int
  get_job_object_pids : Nat → Option (List Nat)
  app_exit_code : Option Int

/-- hashtable_add: fails (returning false, table unchanged) when the key
is already present. -/
def hashtable_add (h : Nat) (t : List Nat) : List Nat × Bool :=
  if h ∈ t then (t, false) else (h :: t, true)

/-- hashtable_remove: removes the key if present, returning whether it was
present. -/
def hashtable_remove (h : Nat) (t : List Nat) : List Nat × Bool :=
  if h ∈ t then (t.erase h, true) else (t, false)

/-- dr_safe_read of the LimitFlags word at loc: succeeds exactly when the
location is mapped. -/
def dr_safe_read (mem : Nat → Option Nat) (loc : Nat) : Option Nat :=
  mem loc

/-- dr_safe_write of a word to loc: succeeds (updating the map) exactly
when the location is mapped, and reports failure otherwise, which the C
code ignores. -/
def dr_safe_write (mem : Nat → Option Nat) (loc : Nat) (v : Nat) :
    (Nat → Option Nat) × Bool :=
  match mem loc with
  | some _ => (fun l => if l = loc then some v else mem l, true)
  | none => (mem, false)

/-- The loop body of soft_kills_handle_job_termination for one member pid
(drx.c lines 620-631): one full fan-out, then, when no subscriber
requested a skip and the pid converts to a usable handle, an emulated
NtTerminateProcess. -/
def job_member_block (env : Env) (beh : Nat → Nat → Int → Bool) (cbs : List Nat)
    (exit_code : Int) (pid : Nat) : List Effect :=
  Effect.invokeCbs pid exit_code ::
    (if (soft_kills_invoke_cbs beh cbs pid exit_code).2 then []
     else
       match env.convert_pid_to_handle pid with
       | some phandle => [Effect.terminate phandle exit_code]
       | none => [])

/-- soft_kills_handle_job_termination (drx.c lines 609-636): query the
member count, and when it is positive and the member list can be read,
run the per-member block over the first num_jobs members. -/
def soft_kills_handle_job_termination (env : Env) (beh : Nat → Nat → Int → Bool)
    (cbs : List Nat) (job : Nat) (exit_code : Int) : List Effect :=
  let num_jobs := env.num_job_object_pids job
  if 0 < num_jobs then
    match env.get_job_object_pids job with
    | some lst => (lst.take num_jobs.toNat).flatMap (job_member_block env beh cbs exit_code)
    | none => []
  else []

/-- soft_kills_handle_close (drx.c lines 638-642): identical treatment to
a job termination. -/
def soft_kills_handle_close (env : Env) (beh : Nat → Nat → Int → Bool)
    (cbs : List Nat) (job : Nat) (exit_code : Int) : List Effect :=
  soft_kills_handle_job_termination env beh cbs job exit_code

/-- soft_kills_filter_syscall, Windows variant (drx.c lines 644-651). -/
def soft_kills_filter_syscall (sysnum : Nat) : Bool :=
  sysnum = sysnum_TerminateProcess || sysnum = sysnum_TerminateJobObject ||
  sysnum = sysnum_SetInformationJobObject || sysnum = sysnum_Close

/-- soft_kills_pre_syscall, Windows variant (drx.c lines 654-749).
Returns (execute the real syscall?, new state, effects in program
order); param i models dr_syscall_get_param(drcontext, i). -/
def soft_kills_pre_syscall (env : Env) (beh : Nat → Nat → Int → Bool)
    (cbs : List Nat) (sysnum : Nat) (param : Nat → Nat) (st : SKState) :
    Bool × SKState × List Effect :=
  if sysnum = sysnum_TerminateProcess then
    match env.convert_handle_to_pid (param 0) with
    | some pid =>
      if pid ≠ env.process_id then
        let exit_code := toInt32 (param 1)
        if (soft_kills_invoke_cbs beh cbs pid exit_code).2 then
          (false, st, [Effect.invokeCbs pid exit_code, Effect.setResult 0])
        else
          (true, st, [Effect.invokeCbs pid exit_code])
      else (true, st, [])
    | none => (true, st, [])
  else if sysnum = sysnum_TerminateJobObject then
    let job := param 0
    let exit_code := toInt32 (param 1)
    (false, st,
     soft_kills_handle_job_termination env beh cbs job exit_code ++ [Effect.setResult 0])
  else if sysnum = sysnum_SetInformationJobObject then
    let job := param 0
    let cls_arg := param 1
    let sz := param 3 % 2 ^ 32
    if cls_arg = JobObjectExtendedLimitInformation ∧
       sizeof_JOBOBJECT_EXTENDED_LIMIT_INFORMATION ≤ sz then
      match dr_safe_read st.mem (param 2) with
      | some limit_flags =>
        if JOB_OBJECT_LIMIT_KILL_ON_JOB_CLOSE &&& limit_flags ≠ 0 then
          let new_flags := limit_flags &&& (0xFFFFFFFF ^^^ JOB_OBJECT_LIMIT_KILL_ON_JOB_CLOSE)
          let cls' : cls_soft_t :=
            { job_limit_flags_orig := limit_flags, job_limit_flags_loc := some (param 2) }
          let w := dr_safe_write st.mem (param 2) new_flags
          let a := hashtable_add job st.job_table
          (true, { cls := cls', job_table := a.1, mem := w.1 },
           [Effect.safeWrite (param 2) new_flags])
        else (true, st, [])
      | none => (true, st, [])
    else (true, st, [])
  else if sysnum = sysnum_Close then
    let handle := param 0
    let r := hashtable_remove handle st.job_table
    if r.2 then
      (true, { st with job_table := r.1 },
       soft_kills_handle_close env beh cbs handle 0)
    else (true, st, [])
  else (true, st, [])

/-- soft_kills_post_syscall, Windows variant (drx.c lines 751-766):
restore the original LimitFlags word and clear the CLS patch record. -/
def soft_kills_post_syscall (sysnum : Nat) (st : SKState) : SKState × List Effect :=
  if sysnum = sysnum_SetInformationJobObject then
    match st.cls.job_limit_flags_loc with
    | some loc =>
      let w := dr_safe_write st.mem loc st.cls.job_limit_flags_orig
      ({ st with mem := w.1, cls := { st.cls with job_limit_flags_loc := none } },
       [Effect.safeWrite loc st.cls.job_limit_flags_orig])
    | none => (st, [])
  else (st, [])

/-! ## Unix mediation model (drx.c lines 767-801) -/

/-- SYS_kill on Linux x86-64. -/
def SYS_kill : Nat := 62

def SIGKILL : Int := 9

/-- DynamoRIO INVALID_PROCESS_ID, ((process_id_t)-1) on a 64-bit build. -/
def INVALID_PROCESS_ID : Nat := 2 ^ 64 - 1

/-- soft_kills_filter_syscall, Unix variant (drx.c lines 769-773). -/
def soft_kills_filter_syscall_unix (sysnum : Nat) : Bool :=
  sysnum = SYS_kill

/-- soft_kills_pre_syscall, Unix variant (drx.c lines 776-793).  The Unix
variant keeps no state; it returns (execute the real syscall?, effects).
self_pid models dr_get_process_id(). -/
def soft_kills_pre_syscall_unix (beh : Nat → Nat → Int → Bool) (cbs : List Nat)
    (self_pid : Nat) (sysnum : Nat) (param : Nat → Nat) : Bool × List Effect :=
  if sysnum = SYS_kill then
    let pid := param 0 % 2 ^ 64
    let sig := toInt32 (param 1)
    if sig = SIGKILL ∧ pid ≠ INVALID_PROCESS_ID ∧ pid ≠ self_pid then
      let exit_code := sig * 2 ^ 8
      if (soft_kills_invoke_cbs beh cbs pid exit_code).2 then
        (false, [Effect.invokeCbs pid exit_code, Effect.setResult 0])
      else
        (true, [Effect.invokeCbs pid exit_code])
    else (true, [])
  else (true, [])

/-! ## Subsystem lifecycle (drx.c lines 803-943 and 103-115) -/

/-- Outcomes of the fallible external steps taken by soft_kills_init:
syscall-number resolution (none models soft_kills_get_sysnum returning
-1) and the three drmgr registrations. -/
structure InitEnv where
  res_TerminateProcess : Option Nat
  res_TerminateJobObject : Option Nat
  res_SetInformationJobObject : Option Nat
  res_Close : Option Nat
  cls_register_ok : Bool
  pre_event_ok : Bool
  post_event_ok : Bool
  deriving DecidableEq

/-- Activation-relevant global state: the lazy-init counter of
drx_register_soft_kills, the flags and resources soft_kills_init creates,
which drmgr observers got registered, and the callback registry. -/
structure RegState where
  soft_kills_init_count : Int
  soft_kills_enabled : Bool
  lock_created : Bool
  table_created : Bool
  cls_registered : Bool
  pre_registered : Bool
  post_registered : Bool
  filter_registered : Bool
  cb_list : List Nat
  deriving DecidableEq

/-- soft_kills_init (drx.c lines 803-880): set soft_kills_enabled, create
the lock and the job table, then resolve the four syscall numbers,
register the CLS field and the pre/post/filter events, returning false at
the first failure (with everything already done left in place). -/
def soft_kills_init (env : InitEnv) (st : RegState) : RegState × Bool :=
  let st := { st with soft_kills_enabled := true, lock_created := true,
                      table_created := true }
  match env.res_TerminateProcess with
  | none => (st, false)
  | some _ =>
    match env.res_TerminateJobObject with
    | none => (st, false)
    | some _ =>
      match env.res_SetInformationJobObject with
      | none => (st, false)
      | some _ =>
        match env.res_Close with
        | none => (st, false)
        | some _ =>
          if env.cls_register_ok then
            let st := { st with cls_registered := true }
            if env.pre_event_ok then
              let st := { st with pre_registered := true }
              if env.post_event_ok then
                ({ st with post_registered := true, filter_registered := true }, true)
              else (st, false)
            else (st, false)
          else (st, false)

/-- drx_register_soft_kills (drx.c lines 922-943): bump the lazy-init
counter, run soft_kills_init on the first registration (its result is
discarded), push the new callback entry on cb_list, and return true. -/
def drx_register_soft_kills (env : InitEnv) (cb : Nat) (st : RegState) :
    RegState × Bool :=
  let count := st.soft_kills_init_count + 1
  let st1 := { st with soft_kills_init_count := count }
  let st2 := if count = 1 then (soft_kills_init env st1).1 else st1
  ({ st2 with cb_list := register_cb cb st2.cb_list }, true)

/-- Teardown-relevant global state: the drx_init reference counter, the
soft-kills enabled flag, the job table, the callback registry, and
liveness flags for the table and the lock. -/
structure DrxState where
  drx_init_count : Int
  soft_kills_enabled : Bool
  job_table : List Nat
  cb_list : List Nat
  table_alive : Bool
  lock_alive : Bool
  deriving DecidableEq

/-- soft_kills_exit (drx.c lines 882-920): force-notify every tracked job
handle as if closed, using the app exit code when it can be queried and 0
otherwise, then delete the table, free every callback entry and destroy
the lock. -/
def soft_kills_exit (env : Env) (beh : Nat → Nat → Int → Bool) (st : DrxState) :
    DrxState × List Effect :=
  let exit_code : Int :=
    match env.app_exit_code with
    | some c => c
    | none => 0
  let effs := st.job_table.flatMap
    (fun job => soft_kills_handle_close env beh st.cb_list job exit_code)
  ({ st with job_table := [], table_alive := false, cb_list := [],
             lock_alive := false }, effs)

/-- drx_exit (drx.c lines 103-115): decrement the init counter; only the
call that brings it to zero tears the subsystem down, and only when soft
kills were enabled. -/
def drx_exit (env : Env) (beh : Nat → Nat → Int → Bool) (st : DrxState) :
    DrxState × List Effect :=
  let count := st.drx_init_count - 1
  let st1 := { st with drx_init_count := count }
  if count ≠ 0 then (st1, [])
  else if st1.soft_kills_enabled then soft_kills_exit env beh st1
  else (st1, [])

/-! ## Basic lemmas about the registry -/

lemma foldl_register_cb (regs : List Nat) (acc : List Nat) :
    regs.foldl (fun a cb => register_cb cb a) acc = regs.reverse ++ acc := by
  induction regs generalizing acc with
  | nil => simp
  | cons r rs ih => simp [register_cb, ih]

lemma register_all_eq_reverse (regs : List Nat) :
    register_all regs = regs.reverse := by
  simp [register_all, foldl_register_cb]

lemma invoke_cbs_loop_fst (beh : Nat → Nat → Int → Bool) (pid : Nat) (ec : Int)
    (l : List Nat) (b : Bool) : (invoke_cbs_loop beh pid ec l b).1 = l := by
  induction l generalizing b with
  | nil => rfl
  | cons e rest ih => simp [invoke_cbs_loop, ih]

lemma invoke_cbs_loop_snd (beh : Nat → Nat → Int → Bool) (pid : Nat) (ec : Int)
    (l : List Nat) (b : Bool) :
    (invoke_cbs_loop beh pid ec l b).2 = ((l.any fun e => beh e pid ec) || b) := by
  induction l generalizing b with
  | nil => simp [invoke_cbs_loop]
  | cons e rest ih =>
    simp [invoke_cbs_loop, ih, Bool.or_comm, Bool.or_assoc, Bool.or_left_comm]

lemma soft_kills_invoke_cbs_fst (beh : Nat → Nat → Int → Bool) (cbs : List Nat)
    (pid : Nat) (ec : Int) : (soft_kills_invoke_cbs beh cbs pid ec).1 = cbs :=
  invoke_cbs_loop_fst beh pid ec cbs false

lemma soft_kills_invoke_cbs_snd (beh : Nat → Nat → Int → Bool) (cbs : List Nat)
    (pid : Nat) (ec : Int) :
    (soft_kills_invoke_cbs beh cbs pid ec).2 = (cbs.any fun e => beh e pid ec) := by
  simp [soft_kills_invoke_cbs, invoke_cbs_loop_snd]

/-! ## Claim C1 -/

/-- C1 (as frozen) is refuted on the invocation order: drx_register_soft_kills
pushes each new entry on the front of cb_list, so after registering the
subscribers 0 and 1 in that order, one fan-out calls 1 before 0, not the
registration order 0 then 1. -/
theorem C1_registration_order_cex :
    (soft_kills_invoke_cbs (fun _ _ _ => false) (register_all [0, 1]) 5 7).1 ≠ [0, 1] := by
  decide

/-- C1 (amended): one invocation of the fan-out over a registry built by
registering the distinct subscribers of regs in order calls every
registered subscriber exactly once, in reverse registration order,
regardless of the boolean each subscriber returns, and returns true iff
at least one subscriber returned true. -/
theorem C1_invoke_all_fanout (beh : Nat → Nat → Int → Bool) (regs : List Nat)
    (pid : Nat) (exit_code : Int) (hnd : regs.Nodup) :
    (soft_kills_invoke_cbs beh (register_all regs) pid exit_code).1 = regs.reverse ∧
    (∀ c ∈ regs,
      (soft_kills_invoke_cbs beh (register_all regs) pid exit_code).1.count c = 1) ∧
    ((soft_kills_invoke_cbs beh (register_all regs) pid exit_code).2 = true ↔
      ∃ c ∈ regs, beh c pid exit_code = true) := by
  refine ⟨?_, ?_, ?_⟩
  · rw [register_all_eq_reverse, soft_kills_invoke_cbs_fst]
  · intro c hc
    rw [register_all_eq_reverse, soft_kills_invoke_cbs_fst]
    exact List.count_eq_one_of_mem (List.nodup_reverse.mpr hnd) (List.mem_reverse.mpr hc)
  · rw [register_all_eq_reverse, soft_kills_invoke_cbs_snd]
    simp [List.any_eq_true]

theorem C1_invoke_all_fanout_witness :
    List.Nodup [0, 1] ∧
    ((soft_kills_invoke_cbs (fun c _ _ => c == 0) (register_all [0, 1]) 5 7).1 =
        List.reverse [0, 1] ∧
     (∀ c ∈ [0, 1],
       (soft_kills_invoke_cbs (fun c _ _ => c == 0) (register_all [0, 1]) 5 7).1.count c = 1) ∧
     ((soft_kills_invoke_cbs (fun c _ _ => c == 0) (register_all [0, 1]) 5 7).2 = true ↔
       ∃ c ∈ [0, 1], (fun c _ _ => c == 0) c 5 7 = true)) :=
  ⟨by decide, C1_invoke_all_fanout (fun c _ _ => c == 0) [0, 1] 5 7 (by decide)⟩

/-! ## Claim C2 -/

lemma soft_kills_init_enabled (env : InitEnv) (st : RegState) :
    (soft_kills_init env st).1.soft_kills_enabled = true ∧
    (soft_kills_init env st).1.lock_created = true ∧
    (soft_kills_init env st).1.cb_list = st.cb_list := by
  rcases env with ⟨r1, r2, r3, r4, b1, b2, b3⟩
  cases r1 <;> cases r2 <;> cases r3 <;> cases r4 <;>
    cases b1 <;> cases b2 <;> cases b3 <;>
    exact ⟨rfl, rfl, rfl⟩

/-- An activation environment in which every syscall-number resolution
fails, and an inactive starting state; used to exercise the activation
failure path. -/
def failInitEnv : InitEnv :=
  ⟨none, none, none, none, false, false, false⟩

def regState0 : RegState :=
  ⟨0, false, false, false, false, false, false, false, []⟩

/-- C2 (as frozen) is refuted: with every syscall-number resolution
failing, the first drx_register_soft_kills call still returns true even
though soft_kills_init failed, and the subsystem is left partially
activated (soft_kills_enabled set and the lock created, but no pre-syscall
observer registered). -/
theorem C2_activation_failure_cex :
    (soft_kills_init failInitEnv { regState0 with soft_kills_init_count := 1 }).2 = false ∧
    (drx_register_soft_kills failInitEnv 7 regState0).2 = true ∧
    (drx_register_soft_kills failInitEnv 7 regState0).1.soft_kills_enabled = true ∧
    (drx_register_soft_kills failInitEnv 7 regState0).1.lock_created = true ∧
    (drx_register_soft_kills failInitEnv 7 regState0).1.pre_registered = false := by
  decide

/-- C2 (amended): drx_register_soft_kills always returns true and appends
the subscriber, whatever the outcome of one-time activation; on a first
registration the subsystem is enabled and the lock is created even when a
later activation step fails, so an activation failure is neither reported
to the caller nor leaves the subsystem fully inert. -/
theorem C2_subscribe_always_true (env : InitEnv) (cb : Nat) (st : RegState) :
    (drx_register_soft_kills env cb st).2 = true ∧
    (drx_register_soft_kills env cb st).1.cb_list = cb :: st.cb_list ∧
    (st.soft_kills_init_count = 0 →
      (drx_register_soft_kills env cb st).1.soft_kills_enabled = true ∧
      (drx_register_soft_kills env cb st).1.lock_created = true) := by
  refine ⟨rfl, ?_, ?_⟩
  · unfold drx_register_soft_kills
    by_cases h : st.soft_kills_init_count + 1 = 1
    · simp [h, register_cb, (soft_kills_init_enabled env _).2.2]
    · simp [h, register_cb]
  · intro h0
    have h : st.soft_kills_init_count + 1 = 1 := by omega
    unfold drx_register_soft_kills
    simp [h, (soft_kills_init_enabled env _).1, (soft_kills_init_enabled env _).2.1]

theorem C2_subscribe_always_true_witness :
    regState0.soft_kills_init_count = 0 ∧
    ((drx_register_soft_kills failInitEnv 7 regState0).2 = true ∧
     (drx_register_soft_kills failInitEnv 7 regState0).1.cb_list = 7 :: regState0.cb_list ∧
     (regState0.soft_kills_init_count = 0 →
       (drx_register_soft_kills failInitEnv 7 regState0).1.soft_kills_enabled = true ∧
       (drx_register_soft_kills failInitEnv 7 regState0).1.lock_created = true)) :=
  ⟨rfl, C2_subscribe_always_true failInitEnv 7 regState0⟩

/-! ## Concrete fixtures used by the evaluation theorems -/

/-- A concrete environment: the caller is process 1, handle 0 does not
resolve, every other handle resolves to the pid of the same value, pid p
converts to process handle p + 100, and every job has the two members
10 and 20. -/
def envW : Env :=
  { process_id := 1,
    convert_handle_to_pid := fun h => if h = 0 then none else some h,
    convert_pid_to_handle := fun p => some (p + 100),
    num_job_object_pids := fun _ => 2,
    get_job_object_pids := fun _ => some [10, 20],
    app_exit_code := some 5 }

/-- A concrete subscriber behaviour: subscriber 0 requests suppression
exactly for pid 10; every other subscriber never suppresses. -/
def behW : Nat → Nat → Int → Bool :=
  fun c p _ => c == 0 && p == 10

/-- A concrete mediation state: empty CLS record, job 7 tracked, and the
single mapped LimitFlags word 0x2003 at location 2. -/
def stW : SKState :=
  { cls := { job_limit_flags_orig := 0, job_limit_flags_loc := none },
    job_table := [7],
    mem := fun l => if l = 2 then some 0x2003 else none }

/-- Concrete syscall parameters: handle/job 7, second parameter 9,
information pointer 2, size 144. -/
def paramW : Nat → Nat :=
  fun i => [7, 9, 2, 144].getD i 0

/-! ## Claim C3 -/

/-- C3 (confirmed): for a direct process-termination syscall whose target
resolves to a process other than the caller, if at least one subscriber
suppresses then the pre-phase synthesizes success (result 0) and skips
the real syscall, and if every subscriber declines then the real syscall
runs with the state unchanged and no synthesized result.  Stated for the
Windows NtTerminateProcess path and for the Unix SYS_kill path. -/
theorem C3_direct_termination (env : Env) (beh : Nat → Nat → Int → Bool)
    (cbs : List Nat) (param : Nat → Nat) (st : SKState) (pid : Nat)
    (hres : env.convert_handle_to_pid (param 0) = some pid)
    (hself : pid ≠ env.process_id) :
    ((soft_kills_invoke_cbs beh cbs pid (toInt32 (param 1))).2 = true →
      soft_kills_pre_syscall env beh cbs sysnum_TerminateProcess param st =
        (false, st, [Effect.invokeCbs pid (toInt32 (param 1)), Effect.setResult 0])) ∧
    ((soft_kills_invoke_cbs beh cbs pid (toInt32 (param 1))).2 = false →
      soft_kills_pre_syscall env beh cbs sysnum_TerminateProcess param st =
        (true, st, [Effect.invokeCbs pid (toInt32 (param 1))]) ∧
      ∀ v, Effect.setResult v ∉
        (soft_kills_pre_syscall env beh cbs sysnum_TerminateProcess param st).2.2) ∧
    (∀ self_pid : Nat,
      param 0 % 2 ^ 64 ≠ INVALID_PROCESS_ID → param 0 % 2 ^ 64 ≠ self_pid →
      toInt32 (param 1) = SIGKILL →
      ((soft_kills_invoke_cbs beh cbs (param 0 % 2 ^ 64) (SIGKILL * 2 ^ 8)).2 = true →
        soft_kills_pre_syscall_unix beh cbs self_pid SYS_kill param =
          (false, [Effect.invokeCbs (param 0 % 2 ^ 64) (SIGKILL * 2 ^ 8),
                   Effect.setResult 0])) ∧
      ((soft_kills_invoke_cbs beh cbs (param 0 % 2 ^ 64) (SIGKILL * 2 ^ 8)).2 = false →
        soft_kills_pre_syscall_unix beh cbs self_pid SYS_kill param =
          (true, [Effect.invokeCbs (param 0 % 2 ^ 64) (SIGKILL * 2 ^ 8)]))) := by
  refine ⟨?_, ?_, ?_⟩
  · intro hskip
    simp [soft_kills_pre_syscall, hres, hself, hskip]
  · intro hskip
    constructor
    · simp [soft_kills_pre_syscall, hres, hself, hskip]
    · intro v
      simp [soft_kills_pre_syscall, hres, hself, hskip]
  · intro self_pid h1 h2 hsig
    constructor
    · intro hskip
      simp only [soft_kills_pre_syscall_unix]
      rw [if_pos trivial, if_pos ⟨hsig, h1, h2⟩, hsig, if_pos hskip]
    · intro hskip
      simp only [soft_kills_pre_syscall_unix]
      rw [if_pos trivial, if_pos ⟨hsig, h1, h2⟩, hsig, if_neg (by rw [hskip]; simp)]

theorem C3_direct_termination_witness :
    envW.convert_handle_to_pid (paramW 0) = some 7 ∧ 7 ≠ envW.process_id ∧
    (((soft_kills_invoke_cbs behW [0] 7 (toInt32 (paramW 1))).2 = true →
       soft_kills_pre_syscall envW behW [0] sysnum_TerminateProcess paramW stW =
         (false, stW, [Effect.invokeCbs 7 (toInt32 (paramW 1)), Effect.setResult 0])) ∧
     ((soft_kills_invoke_cbs behW [0] 7 (toInt32 (paramW 1))).2 = false →
       soft_kills_pre_syscall envW behW [0] sysnum_TerminateProcess paramW stW =
         (true, stW, [Effect.invokeCbs 7 (toInt32 (paramW 1))]) ∧
       ∀ v, Effect.setResult v ∉
         (soft_kills_pre_syscall envW behW [0] sysnum_TerminateProcess paramW stW).2.2) ∧
     (∀ self_pid : Nat,
       paramW 0 % 2 ^ 64 ≠ INVALID_PROCESS_ID → paramW 0 % 2 ^ 64 ≠ self_pid →
       toInt32 (paramW 1) = SIGKILL →
       ((soft_kills_invoke_cbs behW [0] (paramW 0 % 2 ^ 64) (SIGKILL * 2 ^ 8)).2 = true →
         soft_kills_pre_syscall_unix behW [0] self_pid SYS_kill paramW =
           (false, [Effect.invokeCbs (paramW 0 % 2 ^ 64) (SIGKILL * 2 ^ 8),
                    Effect.setResult 0])) ∧
       ((soft_kills_invoke_cbs behW [0] (paramW 0 % 2 ^ 64) (SIGKILL * 2 ^ 8)).2 = false →
         soft_kills_pre_syscall_unix behW [0] self_pid SYS_kill paramW =
           (true, [Effect.invokeCbs (paramW 0 % 2 ^ 64) (SIGKILL * 2 ^ 8)])))) :=
  ⟨by decide, by decide,
   C3_direct_termination envW behW [0] paramW stW 7 (by decide) (by decide)⟩

/-! ## Claim C7 -/

/-- C7 (confirmed): for every subscriber configuration, a termination
syscall whose target cannot be resolved or whose target is the caller's
own process is never intercepted: no callback runs, no result is
synthesized, the state is unchanged and the real syscall executes.
Stated for the Windows NtTerminateProcess path and for the Unix SYS_kill
path. -/
theorem C7_self_never_intercepted (env : Env) (beh : Nat → Nat → Int → Bool)
    (cbs : List Nat) (param : Nat → Nat) (st : SKState) :
    (env.convert_handle_to_pid (param 0) = none →
      soft_kills_pre_syscall env beh cbs sysnum_TerminateProcess param st =
        (true, st, [])) ∧
    (∀ pid, env.convert_handle_to_pid (param 0) = some pid → pid = env.process_id →
      soft_kills_pre_syscall env beh cbs sysnum_TerminateProcess param st =
        (true, st, [])) ∧
    (∀ self_pid : Nat,
      param 0 % 2 ^ 64 = INVALID_PROCESS_ID ∨ param 0 % 2 ^ 64 = self_pid →
      soft_kills_pre_syscall_unix beh cbs self_pid SYS_kill param = (true, [])) := by
  refine ⟨?_, ?_, ?_⟩
  · intro hres
    simp [soft_kills_pre_syscall, hres]
  · intro pid hres hself
    simp [soft_kills_pre_syscall, hres, hself]
  · intro self_pid hcase
    have hng : ¬(toInt32 (param 1) = SIGKILL ∧
        param 0 % 2 ^ 64 ≠ INVALID_PROCESS_ID ∧ param 0 % 2 ^ 64 ≠ self_pid) := by
      rintro ⟨-, hA, hB⟩
      rcases hcase with h | h
      · exact hA h
      · exact hB h
    simp only [soft_kills_pre_syscall_unix]
    rw [if_pos trivial, if_neg hng]

theorem C7_self_never_intercepted_witness :
    envW.convert_handle_to_pid 0 = none ∧ envW.convert_handle_to_pid 1 = some 1 ∧
    1 = envW.process_id ∧
    ((envW.convert_handle_to_pid ((fun _ => 0) 0) = none →
       soft_kills_pre_syscall envW (fun _ _ _ => true) [0] sysnum_TerminateProcess
         (fun _ => 0) stW = (true, stW, [])) ∧
     (∀ pid, envW.convert_handle_to_pid ((fun _ => 0) 0) = some pid →
       pid = envW.process_id →
       soft_kills_pre_syscall envW (fun _ _ _ => true) [0] sysnum_TerminateProcess
         (fun _ => 0) stW = (true, stW, [])) ∧
     (∀ self_pid : Nat,
       (fun _ => 0) 0 % 2 ^ 64 = INVALID_PROCESS_ID ∨ (fun _ => 0) 0 % 2 ^ 64 = self_pid →
       soft_kills_pre_syscall_unix (fun _ _ _ => true) [0] self_pid SYS_kill
         (fun _ => 0) = (true, []))) :=
  ⟨by decide, by decide, by decide,
   C7_self_never_intercepted envW (fun _ _ _ => true) [0] (fun _ => 0) stW⟩

/-! ## Claim C8 -/

lemma setResult_not_mem_block (env : Env) (beh : Nat → Nat → Int → Bool)
    (cbs : List Nat) (ec : Int) (pid : Nat) (v : Nat) :
    Effect.setResult v ∉ job_member_block env beh cbs ec pid := by
  unfold job_member_block
  cases hs : (soft_kills_invoke_cbs beh cbs pid ec).2 <;>
    cases hc : env.convert_pid_to_handle pid <;> simp [hs, hc]

lemma setResult_not_mem_job_termination (env : Env) (beh : Nat → Nat → Int → Bool)
    (cbs : List Nat) (job : Nat) (ec : Int) (v : Nat) :
    Effect.setResult v ∉ soft_kills_handle_job_termination env beh cbs job ec := by
  intro hmem
  by_cases h : 0 < env.num_job_object_pids job
  · cases hg : env.get_job_object_pids job with
    | none => simp [soft_kills_handle_job_termination, if_pos h, hg] at hmem
    | some lst =>
      simp only [soft_kills_handle_job_termination, if_pos h, hg] at hmem
      rw [List.mem_flatMap] at hmem
      obtain ⟨p, -, hp⟩ := hmem
      exact setResult_not_mem_block env beh cbs ec p v hp
  · simp [soft_kills_handle_job_termination, if_neg h] at hmem

lemma pre_syscall_skip_success (env : Env) (beh : Nat → Nat → Int → Bool)
    (cbs : List Nat) (sysnum : Nat) (param : Nat → Nat) (st : SKState) :
    ((soft_kills_pre_syscall env beh cbs sysnum param st).1 = false →
      Effect.setResult 0 ∈ (soft_kills_pre_syscall env beh cbs sysnum param st).2.2) ∧
    (∀ v, Effect.setResult v ∈ (soft_kills_pre_syscall env beh cbs sysnum param st).2.2 →
      v = 0) := by
  by_cases h0 : sysnum = sysnum_TerminateProcess
  · simp only [soft_kills_pre_syscall, if_pos h0]
    cases hc : env.convert_handle_to_pid (param 0) with
    | none => simp
    | some pid =>
      by_cases hp : pid = env.process_id
      · simp [hp]
      · cases hs : (soft_kills_invoke_cbs beh cbs pid (toInt32 (param 1))).2 <;>
          simp [hp, hs]
  · by_cases h1 : sysnum = sysnum_TerminateJobObject
    · simp only [soft_kills_pre_syscall, if_neg h0, if_pos h1]
      constructor
      · intro
        simp
      · intro v hv
        rw [List.mem_append] at hv
        rcases hv with hv | hv
        · exact absurd hv
            (setResult_not_mem_job_termination env beh cbs (param 0) (toInt32 (param 1)) v)
        · simpa using hv
    · by_cases h2 : sysnum = sysnum_SetInformationJobObject
      · simp only [soft_kills_pre_syscall, if_neg h0, if_neg h1, if_pos h2]
        by_cases hA : param 1 = JobObjectExtendedLimitInformation ∧
            sizeof_JOBOBJECT_EXTENDED_LIMIT_INFORMATION ≤ param 3 % 2 ^ 32
        · rw [if_pos hA]
          cases hr : dr_safe_read st.mem (param 2) with
          | none => simp
          | some flags =>
            by_cases hf : JOB_OBJECT_LIMIT_KILL_ON_JOB_CLOSE &&& flags ≠ 0
            · simp [hf]
            · simp [hf]
        · rw [if_neg hA]
          simp
      · by_cases h3 : sysnum = sysnum_Close
        · simp only [soft_kills_pre_syscall, if_neg h0, if_neg h1, if_neg h2, if_pos h3]
          cases hb : (hashtable_remove (param 0) st.job_table).2
          · simp [hb]
          · constructor
            · simp [hb]
            · intro v hv
              simp [hb, soft_kills_handle_close] at hv
              exact absurd hv
                (setResult_not_mem_job_termination env beh cbs (param 0) 0 v)
        · simp [soft_kills_pre_syscall, h0, h1, h2, h3]

lemma pre_unix_skip_success (beh : Nat → Nat → Int → Bool) (cbs : List Nat)
    (self_pid : Nat) (sysnum : Nat) (param : Nat → Nat) :
    ((soft_kills_pre_syscall_unix beh cbs self_pid sysnum param).1 = false →
      Effect.setResult 0 ∈ (soft_kills_pre_syscall_unix beh cbs self_pid sysnum param).2) ∧
    (∀ v, Effect.setResult v ∈ (soft_kills_pre_syscall_unix beh cbs self_pid sysnum param).2 →
      v = 0) := by
  by_cases h0 : sysnum = SYS_kill
  · simp only [soft_kills_pre_syscall_unix, if_pos h0]
    by_cases hc : toInt32 (param 1) = SIGKILL ∧
        param 0 % 2 ^ 64 ≠ INVALID_PROCESS_ID ∧ param 0 % 2 ^ 64 ≠ self_pid
    · rw [if_pos hc]
      cases hs : (soft_kills_invoke_cbs beh cbs (param 0 % 2 ^ 64) (toInt32 (param 1) * 2 ^ 8)).2
      · simp
      · simp
    · rw [if_neg hc]
      simp
  · simp [soft_kills_pre_syscall_unix, h0]

/-- C8 (confirmed): on every execution path of the pre-phase, Windows or
Unix, the only synthesized result value ever set is success (0), and
whenever the pre-phase decides to skip the real syscall it has set that
success result. -/
theorem C8_skip_implies_success (env : Env) (beh : Nat → Nat → Int → Bool)
    (cbs : List Nat) (sysnum : Nat) (param : Nat → Nat) (st : SKState) :
    ((soft_kills_pre_syscall env beh cbs sysnum param st).1 = false →
      Effect.setResult 0 ∈ (soft_kills_pre_syscall env beh cbs sysnum param st).2.2) ∧
    (∀ v, Effect.setResult v ∈ (soft_kills_pre_syscall env beh cbs sysnum param st).2.2 →
      v = 0) ∧
    (∀ self_pid : Nat,
      ((soft_kills_pre_syscall_unix beh cbs self_pid sysnum param).1 = false →
        Effect.setResult 0 ∈ (soft_kills_pre_syscall_unix beh cbs self_pid sysnum param).2) ∧
      (∀ v, Effect.setResult v ∈ (soft_kills_pre_syscall_unix beh cbs self_pid sysnum param).2 →
        v = 0)) :=
  ⟨(pre_syscall_skip_success env beh cbs sysnum param st).1,
   (pre_syscall_skip_success env beh cbs sysnum param st).2,
   fun self_pid => pre_unix_skip_success beh cbs self_pid sysnum param⟩

theorem C8_skip_implies_success_witness :
    ((soft_kills_pre_syscall envW behW [0] sysnum_TerminateJobObject paramW stW).1 = false →
      Effect.setResult 0 ∈
        (soft_kills_pre_syscall envW behW [0] sysnum_TerminateJobObject paramW stW).2.2) ∧
    (∀ v, Effect.setResult v ∈
        (soft_kills_pre_syscall envW behW [0] sysnum_TerminateJobObject paramW stW).2.2 →
      v = 0) ∧
    (∀ self_pid : Nat,
      ((soft_kills_pre_syscall_unix behW [0] self_pid sysnum_TerminateJobObject paramW).1 = false →
        Effect.setResult 0 ∈
          (soft_kills_pre_syscall_unix behW [0] self_pid sysnum_TerminateJobObject paramW).2) ∧
      (∀ v, Effect.setResult v ∈
          (soft_kills_pre_syscall_unix behW [0] self_pid sysnum_TerminateJobObject paramW).2 →
        v = 0)) :=
  C8_skip_implies_success envW behW [0] sysnum_TerminateJobObject paramW stW

/-! ## Claim C6 -/

/-- C6 (confirmed): on a handle-close syscall, a handle present in the job
table is removed and receives exactly the group-termination treatment with
exit code 0 while the close itself still executes; a handle not present
produces no effect and leaves the state unchanged. -/
theorem C6_close_tracked_handle (env : Env) (beh : Nat → Nat → Int → Bool)
    (cbs : List Nat) (param : Nat → Nat) (st : SKState) :
    (soft_kills_handle_close env beh cbs (param 0) 0 =
      soft_kills_handle_job_termination env beh cbs (param 0) 0) ∧
    (param 0 ∈ st.job_table →
      soft_kills_pre_syscall env beh cbs sysnum_Close param st =
        (true, { st with job_table := st.job_table.erase (param 0) },
         soft_kills_handle_job_termination env beh cbs (param 0) 0)) ∧
    (param 0 ∉ st.job_table →
      soft_kills_pre_syscall env beh cbs sysnum_Close param st = (true, st, [])) := by
  refine ⟨rfl, ?_, ?_⟩
  · intro hmem
    simp [soft_kills_pre_syscall, sysnum_Close, sysnum_TerminateProcess,
          sysnum_TerminateJobObject, sysnum_SetInformationJobObject,
          hashtable_remove, hmem, soft_kills_handle_close]
  · intro hmem
    simp [soft_kills_pre_syscall, sysnum_Close, sysnum_TerminateProcess,
          sysnum_TerminateJobObject, sysnum_SetInformationJobObject,
          hashtable_remove, hmem]

theorem C6_close_tracked_handle_witness :
    paramW 0 ∈ stW.job_table ∧
    soft_kills_pre_syscall envW behW [0] sysnum_Close paramW stW =
      (true, { stW with job_table := stW.job_table.erase (paramW 0) },
       soft_kills_handle_job_termination envW behW [0] (paramW 0) 0) :=
  ⟨by decide, (C6_close_tracked_handle envW behW [0] paramW stW).2.1 (by decide)⟩

/-! ## Claim C4 -/

lemma count_invokeCbs_block (env : Env) (beh : Nat → Nat → Int → Bool)
    (cbs : List Nat) (ec : Int) (p m : Nat) :
    (job_member_block env beh cbs ec p).count (Effect.invokeCbs m ec) =
      if m = p then 1 else 0 := by
  unfold job_member_block
  cases hs : (soft_kills_invoke_cbs beh cbs p ec).2 <;>
    cases hc : env.convert_pid_to_handle p <;>
    by_cases hpm : m = p <;>
    simp [hs, hc, hpm, List.count_cons]

lemma count_invokeCbs_flatMap (env : Env) (beh : Nat → Nat → Int → Bool)
    (cbs : List Nat) (ec : Int) (m : Nat) (lst : List Nat) :
    (lst.flatMap (job_member_block env beh cbs ec)).count (Effect.invokeCbs m ec) =
      lst.count m := by
  induction lst with
  | nil => simp
  | cons p ps ih =>
    rw [List.flatMap_cons, List.count_append, ih, count_invokeCbs_block,
        List.count_cons]
    by_cases hpm : m = p <;> simp [hpm] <;> omega

lemma terminate_mem_block (env : Env) (beh : Nat → Nat → Int → Bool)
    (cbs : List Nat) (ec : Int) (p h : Nat) :
    (Effect.terminate h ec ∈ job_member_block env beh cbs ec p) ↔
      ((soft_kills_invoke_cbs beh cbs p ec).2 = false ∧
       env.convert_pid_to_handle p = some h) := by
  unfold job_member_block
  cases hs : (soft_kills_invoke_cbs beh cbs p ec).2 <;>
    cases hc : env.convert_pid_to_handle p <;> simp [hs, hc, eq_comm]

lemma terminate_mem_flatMap (env : Env) (beh : Nat → Nat → Int → Bool)
    (cbs : List Nat) (ec : Int) (h : Nat) (lst : List Nat) :
    Effect.terminate h ec ∈ lst.flatMap (job_member_block env beh cbs ec) ↔
      ∃ p ∈ lst, (soft_kills_invoke_cbs beh cbs p ec).2 = false ∧
        env.convert_pid_to_handle p = some h := by
  rw [List.mem_flatMap]
  constructor
  · rintro ⟨p, hp, hmem⟩
    exact ⟨p, hp, (terminate_mem_block env beh cbs ec p h).mp hmem⟩
  · rintro ⟨p, hp, hcond⟩
    exact ⟨p, hp, (terminate_mem_block env beh cbs ec p h).mpr hcond⟩

lemma job_termination_members (env : Env) (beh : Nat → Nat → Int → Bool)
    (cbs : List Nat) (job : Nat) (ec : Int) (members : List Nat)
    (hnum : env.num_job_object_pids job = (members.length : Int))
    (hget : env.get_job_object_pids job = some members) :
    soft_kills_handle_job_termination env beh cbs job ec =
      members.flatMap (job_member_block env beh cbs ec) := by
  simp only [soft_kills_handle_job_termination, hnum, hget]
  by_cases h : 0 < (members.length : Int)
  · rw [if_pos h]
    rw [show ((members.length : Int)).toNat = members.length from Int.toNat_natCast _,
        List.take_length]
  · rw [if_neg h]
    have hz : members.length = 0 := by omega
    rw [List.length_eq_zero.mp hz]
    simp

/-- C4 (confirmed): for a group-termination syscall, the pre-phase always
skips the real syscall with a synthesized success for every member set
including the empty one; the state is unchanged; the effect trace invokes
the fan-out exactly once per group member with the group's exit code; and
an emulated NtTerminateProcess is issued exactly for the members whose
fan-out did not request suppression, suppressed members being left
alone. -/
theorem C4_job_termination (env : Env) (beh : Nat → Nat → Int → Bool)
    (cbs : List Nat) (param : Nat → Nat) (st : SKState)
    (members : List Nat) (f : Nat → Nat)
    (hnum : env.num_job_object_pids (param 0) = (members.length : Int))
    (hget : env.get_job_object_pids (param 0) = some members)
    (hconv : ∀ m ∈ members, env.convert_pid_to_handle m = some (f m))
    (hnd : members.Nodup)
    (hinj : ∀ m ∈ members, ∀ n ∈ members, f m = f n → m = n) :
    (∀ (env' : Env) (param' : Nat → Nat) (st' : SKState),
      (soft_kills_pre_syscall env' beh cbs sysnum_TerminateJobObject param' st').1 = false ∧
      Effect.setResult 0 ∈
        (soft_kills_pre_syscall env' beh cbs sysnum_TerminateJobObject param' st').2.2) ∧
    (soft_kills_pre_syscall env beh cbs sysnum_TerminateJobObject param st).2.1 = st ∧
    (soft_kills_pre_syscall env beh cbs sysnum_TerminateJobObject param st).2.2 =
      members.flatMap (job_member_block env beh cbs (toInt32 (param 1))) ++
        [Effect.setResult 0] ∧
    (∀ m ∈ members,
      ((soft_kills_pre_syscall env beh cbs sysnum_TerminateJobObject param st).2.2).count
        (Effect.invokeCbs m (toInt32 (param 1))) = 1) ∧
    (∀ m ∈ members, (soft_kills_invoke_cbs beh cbs m (toInt32 (param 1))).2 = false →
      Effect.terminate (f m) (toInt32 (param 1)) ∈
        (soft_kills_pre_syscall env beh cbs sysnum_TerminateJobObject param st).2.2) ∧
    (∀ m ∈ members, (soft_kills_invoke_cbs beh cbs m (toInt32 (param 1))).2 = true →
      Effect.terminate (f m) (toInt32 (param 1)) ∉
        (soft_kills_pre_syscall env beh cbs sysnum_TerminateJobObject param st).2.2) := by
  have hjt := job_termination_members env beh cbs (param 0) (toInt32 (param 1))
    members hnum hget
  have hpre : soft_kills_pre_syscall env beh cbs sysnum_TerminateJobObject param st =
      (false, st,
       soft_kills_handle_job_termination env beh cbs (param 0) (toInt32 (param 1)) ++
         [Effect.setResult 0]) := rfl
  refine ⟨?_, ?_, ?_, ?_, ?_, ?_⟩
  · intro env' param' st'
    refine ⟨rfl, ?_⟩
    have h2 : (soft_kills_pre_syscall env' beh cbs sysnum_TerminateJobObject param' st').2.2 =
        soft_kills_handle_job_termination env' beh cbs (param' 0) (toInt32 (param' 1)) ++
          [Effect.setResult 0] := rfl
    rw [h2]
    simp
  · rw [hpre]
  · rw [hpre, hjt]
  · intro m hm
    rw [hpre]
    simp only [hjt]
    rw [List.count_append, count_invokeCbs_flatMap]
    have h1 : members.count m = 1 := List.count_eq_one_of_mem hnd hm
    have h2 : ([Effect.setResult 0].count (Effect.invokeCbs m (toInt32 (param 1)))) = 0 := by
      simp
    omega
  · intro m hm hskip
    rw [hpre]
    simp only [hjt]
    rw [List.mem_append]
    exact Or.inl ((terminate_mem_flatMap env beh cbs (toInt32 (param 1)) (f m) members).mpr
      ⟨m, hm, hskip, hconv m hm⟩)
  · intro m hm hskip hmem
    rw [hpre] at hmem
    simp only [hjt] at hmem
    rw [List.mem_append] at hmem
    rcases hmem with hmem | hmem
    · obtain ⟨p, hp, hps, hph⟩ :=
        (terminate_mem_flatMap env beh cbs (toInt32 (param 1)) (f m) members).mp hmem

      rw [hconv p hp] at hph
      injection hph with hfp
      have hpm : p = m := hinj p hp m hm hfp
      rw [hpm] at hps
      rw [hps] at hskip
      cases hskip
    · simp at hmem

theorem C4_job_termination_witness :
    envW.num_job_object_pids (paramW 0) = (([10, 20] : List Nat).length : Int) ∧
    envW.get_job_object_pids (paramW 0) = some [10, 20] ∧
    ([10, 20] : List Nat).Nodup ∧
    ((soft_kills_pre_syscall envW behW [0] sysnum_TerminateJobObject paramW stW).2.2).count
      (Effect.invokeCbs 10 (toInt32 (paramW 1))) = 1 ∧
    Effect.terminate ((fun p => p + 100) 20) (toInt32 (paramW 1)) ∈
      (soft_kills_pre_syscall envW behW [0] sysnum_TerminateJobObject paramW stW).2.2 ∧
    Effect.terminate ((fun p => p + 100) 10) (toInt32 (paramW 1)) ∉
      (soft_kills_pre_syscall envW behW [0] sysnum_TerminateJobObject paramW stW).2.2 :=
  ⟨by decide, by decide, by decide,
   (C4_job_termination envW behW [0] paramW stW [10, 20] (fun p => p + 100)
     (by decide) (by decide) (by decide) (by decide) (by decide)).2.2.2.1 10 (by decide),
   (C4_job_termination envW behW [0] paramW stW [10, 20] (fun p => p + 100)
     (by decide) (by decide) (by decide) (by decide) (by decide)).2.2.2.2.1 20
     (by decide) (by decide),
   (C4_job_termination envW behW [0] paramW stW [10, 20] (fun p => p + 100)
     (by decide) (by decide) (by decide) (by decide) (by decide)).2.2.2.2.2 10
     (by decide) (by decide)⟩

/-! ## Claim C5 -/

lemma kill_flag_cleared (flags : Nat) :
    JOB_OBJECT_LIMIT_KILL_ON_JOB_CLOSE &&&
      (flags &&& (0xFFFFFFFF ^^^ JOB_OBJECT_LIMIT_KILL_ON_JOB_CLOSE)) = 0 := by
  show (0x2000 : Nat) &&& (flags &&& (0xFFFFFFFF ^^^ (0x2000 : Nat))) = 0
  apply Nat.eq_of_testBit_eq
  intro i
  rw [Nat.testBit_land, Nat.testBit_land, Nat.zero_testBit]
  by_cases hi : i = 13
  · subst hi
    have h1 : Nat.testBit (0xFFFFFFFF ^^^ 0x2000) 13 = false := by decide
    rw [h1, Bool.and_false, Bool.and_false]
  · have h1 : Nat.testBit 0x2000 i = false := by
      have h2 : (0x2000 : Nat) = 2 ^ 13 := by norm_num
      rw [h2]
      exact Nat.testBit_two_pow_of_ne (Ne.symm hi)
    rw [h1, Bool.false_and]

lemma mem_hashtable_add (x h : Nat) (t : List Nat) (hmem : x ∈ t) :
    x ∈ (hashtable_add h t).1 := by
  unfold hashtable_add
  by_cases hm : h ∈ t <;> simp [hm, hmem]

lemma mem_hashtable_add_self (h : Nat) (t : List Nat) :
    h ∈ (hashtable_add h t).1 := by
  unfold hashtable_add
  by_cases hm : h ∈ t <;> simp [hm]

lemma pre_tp_job_table (env : Env) (beh : Nat → Nat → Int → Bool) (cbs : List Nat)
    (pr : Nat → Nat) (st : SKState) :
    (soft_kills_pre_syscall env beh cbs sysnum_TerminateProcess pr st).2.1 = st := by
  cases hc : env.convert_handle_to_pid (pr 0) with
  | none => simp [soft_kills_pre_syscall, hc]
  | some pid =>
    by_cases hp : pid = env.process_id
    · simp [soft_kills_pre_syscall, hc, hp]
    · cases hs : (soft_kills_invoke_cbs beh cbs pid (toInt32 (pr 1))).2 <;>
        simp [soft_kills_pre_syscall, hc, hp, hs]

lemma pre_setinfo_job_table (env : Env) (beh : Nat → Nat → Int → Bool)
    (cbs : List Nat) (pr : Nat → Nat) (st : SKState) (x : Nat)
    (hmem : x ∈ st.job_table) :
    x ∈ (soft_kills_pre_syscall env beh cbs sysnum_SetInformationJobObject pr st).2.1.job_table := by
  simp only [soft_kills_pre_syscall]
  rw [if_neg (by decide : ¬(sysnum_SetInformationJobObject = sysnum_TerminateProcess)),
      if_neg (by decide : ¬(sysnum_SetInformationJobObject = sysnum_TerminateJobObject)),
      if_pos trivial]
  by_cases hA : pr 1 = JobObjectExtendedLimitInformation ∧
      sizeof_JOBOBJECT_EXTENDED_LIMIT_INFORMATION ≤ pr 3 % 2 ^ 32
  · rw [if_pos hA]
    cases hr : dr_safe_read st.mem (pr 2) with
    | none => exact hmem
    | some flags =>
      by_cases hf : JOB_OBJECT_LIMIT_KILL_ON_JOB_CLOSE &&& flags ≠ 0
      · have hadd : x ∈ (hashtable_add (pr 0) st.job_table).1 :=
          mem_hashtable_add x (pr 0) st.job_table hmem
        simpa [hf] using hadd
      · simpa [hf] using hmem
  · rw [if_neg hA]
    exact hmem

lemma pre_close_job_table (env : Env) (beh : Nat → Nat → Int → Bool)
    (cbs : List Nat) (pr : Nat → Nat) (st : SKState) (x : Nat)
    (hmem : x ∈ st.job_table) (hne : pr 0 ≠ x) :
    x ∈ (soft_kills_pre_syscall env beh cbs sysnum_Close pr st).2.1.job_table := by
  simp only [soft_kills_pre_syscall]
  rw [if_neg (by decide : ¬(sysnum_Close = sysnum_TerminateProcess)),
      if_neg (by decide : ¬(sysnum_Close = sysnum_TerminateJobObject)),
      if_neg (by decide : ¬(sysnum_Close = sysnum_SetInformationJobObject)),
      if_pos trivial]
  cases hb : (hashtable_remove (pr 0) st.job_table).2
  · exact hmem
  · show x ∈ (hashtable_remove (pr 0) st.job_table).1
    unfold hashtable_remove
    by_cases hm : pr 0 ∈ st.job_table
    · rw [if_pos hm]
      exact (List.mem_erase_of_ne (Ne.symm hne)).mpr hmem
    · rw [if_neg hm]
      exact hmem

lemma pre_preserves_job_table (env : Env) (beh : Nat → Nat → Int → Bool)
    (cbs : List Nat) (sn : Nat) (pr : Nat → Nat) (st : SKState) (x : Nat)
    (hmem : x ∈ st.job_table) (hcl : sn = sysnum_Close → pr 0 ≠ x) :
    x ∈ (soft_kills_pre_syscall env beh cbs sn pr st).2.1.job_table := by
  by_cases h0 : sn = sysnum_TerminateProcess
  · subst h0
    rw [pre_tp_job_table]
    exact hmem
  · by_cases h1 : sn = sysnum_TerminateJobObject
    · subst h1
      exact hmem
    · by_cases h2 : sn = sysnum_SetInformationJobObject
      · subst h2
        exact pre_setinfo_job_table env beh cbs pr st x hmem
      · by_cases h3 : sn = sysnum_Close
        · subst h3
          exact pre_close_job_table env beh cbs pr st x hmem (hcl rfl)
        · simp [soft_kills_pre_syscall, h0, h1, h2, h3]
          exact hmem

lemma post_preserves_job_table (sn : Nat) (st : SKState) (x : Nat)
    (hmem : x ∈ st.job_table) :
    x ∈ (soft_kills_post_syscall sn st).1.job_table := by
  unfold soft_kills_post_syscall
  by_cases hs : sn = sysnum_SetInformationJobObject
  · rw [if_pos hs]
    cases st.cls.job_limit_flags_loc <;> simpa using hmem
  · rw [if_neg hs]
    exact hmem

/-- C5 (confirmed): when the group-configuration syscall requests the
kill-on-job-close attribute, the pre-phase rewrites the in-flight
LimitFlags word so the attribute is gone, records the patch in the CLS
record, adds the job handle to the job table and still lets the syscall
run; the matching post-phase restores the original word at the same
location and clears the patch record; and the handle stays in the table
across any pre- or post-phase step that is not a close of that very
handle. -/
theorem C5_kill_on_close_patch (env : Env) (beh : Nat → Nat → Int → Bool)
    (cbs : List Nat) (param : Nat → Nat) (st : SKState) (flags : Nat)
    (hcls : param 1 = JobObjectExtendedLimitInformation)
    (hsz : sizeof_JOBOBJECT_EXTENDED_LIMIT_INFORMATION ≤ param 3 % 2 ^ 32)
    (hmem : st.mem (param 2) = some flags)
    (hflag : JOB_OBJECT_LIMIT_KILL_ON_JOB_CLOSE &&& flags ≠ 0) :
    (soft_kills_pre_syscall env beh cbs sysnum_SetInformationJobObject param st).1 = true ∧
    (soft_kills_pre_syscall env beh cbs sysnum_SetInformationJobObject param st).2.1.mem
        (param 2) =
      some (flags &&& (0xFFFFFFFF ^^^ JOB_OBJECT_LIMIT_KILL_ON_JOB_CLOSE)) ∧
    JOB_OBJECT_LIMIT_KILL_ON_JOB_CLOSE &&&
      (flags &&& (0xFFFFFFFF ^^^ JOB_OBJECT_LIMIT_KILL_ON_JOB_CLOSE)) = 0 ∧
    (soft_kills_pre_syscall env beh cbs sysnum_SetInformationJobObject param st).2.1.cls =
      { job_limit_flags_orig := flags, job_limit_flags_loc := some (param 2) } ∧
    param 0 ∈
      (soft_kills_pre_syscall env beh cbs sysnum_SetInformationJobObject param st).2.1.job_table ∧
    (soft_kills_post_syscall sysnum_SetInformationJobObject
      (soft_kills_pre_syscall env beh cbs sysnum_SetInformationJobObject param st).2.1).1.mem
        (param 2) = some flags ∧
    (soft_kills_post_syscall sysnum_SetInformationJobObject
      (soft_kills_pre_syscall env beh cbs sysnum_SetInformationJobObject param st).2.1).1.cls.job_limit_flags_loc
      = none ∧
    (soft_kills_post_syscall sysnum_SetInformationJobObject
      (soft_kills_pre_syscall env beh cbs sysnum_SetInformationJobObject param st).2.1).1.job_table
      = (soft_kills_pre_syscall env beh cbs sysnum_SetInformationJobObject param st).2.1.job_table ∧
    (∀ (st2 : SKState) (sn : Nat) (pr : Nat → Nat), param 0 ∈ st2.job_table →
      (sn = sysnum_Close → pr 0 ≠ param 0) →
      param 0 ∈ (soft_kills_pre_syscall env beh cbs sn pr st2).2.1.job_table) ∧
    (∀ (st2 : SKState) (sn : Nat), param 0 ∈ st2.job_table →
      param 0 ∈ (soft_kills_post_syscall sn st2).1.job_table) := by
  have hpre : soft_kills_pre_syscall env beh cbs sysnum_SetInformationJobObject param st =
      (true,
       { cls := { job_limit_flags_orig := flags, job_limit_flags_loc := some (param 2) },
         job_table := (hashtable_add (param 0) st.job_table).1,
         mem := (dr_safe_write st.mem (param 2)
           (flags &&& (0xFFFFFFFF ^^^ JOB_OBJECT_LIMIT_KILL_ON_JOB_CLOSE))).1 },
       [Effect.safeWrite (param 2)
         (flags &&& (0xFFFFFFFF ^^^ JOB_OBJECT_LIMIT_KILL_ON_JOB_CLOSE))]) := by
    simp only [soft_kills_pre_syscall]
    rw [if_neg (by decide : ¬(sysnum_SetInformationJobObject = sysnum_TerminateProcess)),
        if_neg (by decide : ¬(sysnum_SetInformationJobObject = sysnum_TerminateJobObject)),
        if_pos trivial, if_pos ⟨hcls, hsz⟩]
    rw [show dr_safe_read st.mem (param 2) = some flags from hmem]
    simp [hflag]
  have hw : (dr_safe_write st.mem (param 2)
      (flags &&& (0xFFFFFFFF ^^^ JOB_OBJECT_LIMIT_KILL_ON_JOB_CLOSE))).1 (param 2) =
      some (flags &&& (0xFFFFFFFF ^^^ JOB_OBJECT_LIMIT_KILL_ON_JOB_CLOSE)) := by
    simp [dr_safe_write, hmem]
  refine ⟨?_, ?_, kill_flag_cleared flags, ?_, ?_, ?_, ?_, ?_, ?_, ?_⟩
  · rw [hpre]
  · rw [hpre]
    exact hw
  · rw [hpre]
  · rw [hpre]
    exact mem_hashtable_add_self (param 0) st.job_table
  · rw [hpre]
    simp [soft_kills_post_syscall, dr_safe_write, hmem]
  · rw [hpre]
    simp [soft_kills_post_syscall, dr_safe_write, hmem]
  · rw [hpre]
    simp [soft_kills_post_syscall, dr_safe_write, hmem]
  · intro st2 sn pr hm hc
    exact pre_preserves_job_table env beh cbs sn pr st2 (param 0) hm hc
  · intro st2 sn hm
    exact post_preserves_job_table sn st2 (param 0) hm

theorem C5_kill_on_close_patch_witness :
    paramW 1 = JobObjectExtendedLimitInformation ∧
    sizeof_JOBOBJECT_EXTENDED_LIMIT_INFORMATION ≤ paramW 3 % 2 ^ 32 ∧
    stW.mem (paramW 2) = some 0x2003 ∧
    JOB_OBJECT_LIMIT_KILL_ON_JOB_CLOSE &&& 0x2003 ≠ 0 ∧
    (soft_kills_pre_syscall envW behW [0] sysnum_SetInformationJobObject paramW stW).1 =
      true ∧
    (soft_kills_pre_syscall envW behW [0] sysnum_SetInformationJobObject paramW
        stW).2.1.mem (paramW 2) =
      some (0x2003 &&& (0xFFFFFFFF ^^^ JOB_OBJECT_LIMIT_KILL_ON_JOB_CLOSE)) ∧
    paramW 0 ∈
      (soft_kills_pre_syscall envW behW [0] sysnum_SetInformationJobObject paramW
        stW).2.1.job_table ∧
    (soft_kills_post_syscall sysnum_SetInformationJobObject
      (soft_kills_pre_syscall envW behW [0] sysnum_SetInformationJobObject paramW
        stW).2.1).1.mem (paramW 2) = some 0x2003 ∧
    (soft_kills_post_syscall sysnum_SetInformationJobObject
      (soft_kills_pre_syscall envW behW [0] sysnum_SetInformationJobObject paramW
        stW).2.1).1.cls.job_limit_flags_loc = none := by
  have h := C5_kill_on_close_patch envW behW [0] paramW stW 0x2003
    (by decide) (by decide) (by decide) (by decide)
  exact ⟨by decide, by decide, by decide, by decide,
    h.1, h.2.1, h.2.2.2.2.1, h.2.2.2.2.2.1, h.2.2.2.2.2.2.1⟩

/-! ## Claim C9 -/

/-- A concrete lifecycle state: one outstanding drx_init reference, soft
kills enabled, one tracked job handle, one subscriber. -/
def stD : DrxState :=
  { drx_init_count := 1, soft_kills_enabled := true, job_table := [3],
    cb_list := [0], table_alive := true, lock_alive := true }

/-- C9 (confirmed): the drx_exit call that brings the init counter to
zero sweeps the job table, force-notifying every still-tracked handle as
if closed with the app exit code (or zero when it cannot be queried),
then releases the table, all subscribers and the lock; and a second
drx_exit call changes nothing but the counter and produces no effect. -/
theorem C9_teardown_idempotent (env : Env) (beh : Nat → Nat → Int → Bool)
    (st : DrxState) (hc : st.drx_init_count = 1) (he : st.soft_kills_enabled = true) :
    (drx_exit env beh st).2 =
      st.job_table.flatMap (fun job => soft_kills_handle_close env beh st.cb_list job
        (match env.app_exit_code with
         | some c => c
         | none => 0)) ∧
    (drx_exit env beh st).1.job_table = [] ∧
    (drx_exit env beh st).1.cb_list = [] ∧
    (drx_exit env beh st).1.table_alive = false ∧
    (drx_exit env beh st).1.lock_alive = false ∧
    (drx_exit env beh (drx_exit env beh st).1).2 = [] ∧
    (drx_exit env beh (drx_exit env beh st).1).1 =
      { (drx_exit env beh st).1 with
          drx_init_count := (drx_exit env beh st).1.drx_init_count - 1 } := by
  have h1 : drx_exit env beh st =
      ({ st with drx_init_count := 0, job_table := [], table_alive := false,
                 cb_list := [], lock_alive := false },
       st.job_table.flatMap (fun job => soft_kills_handle_close env beh st.cb_list job
         (match env.app_exit_code with
          | some c => c
          | none => 0))) := by
    simp [drx_exit, soft_kills_exit, hc, he]
  refine ⟨?_, ?_, ?_, ?_, ?_, ?_, ?_⟩
  · rw [h1]
  · rw [h1]
  · rw [h1]
  · rw [h1]
  · rw [h1]
  · rw [h1]
    simp [drx_exit]
  · rw [h1]
    simp [drx_exit]

theorem C9_teardown_idempotent_witness :
    stD.drx_init_count = 1 ∧ stD.soft_kills_enabled = true ∧
    ((drx_exit envW behW stD).2 =
      stD.job_table.flatMap (fun job => soft_kills_handle_close envW behW stD.cb_list job
        (match envW.app_exit_code with
         | some c => c
         | none => 0)) ∧
     (drx_exit envW behW stD).1.job_table = [] ∧
     (drx_exit envW behW stD).1.cb_list = [] ∧
     (drx_exit envW behW stD).1.table_alive = false ∧
     (drx_exit envW behW stD).1.lock_alive = false ∧
     (drx_exit envW behW (drx_exit envW behW stD).1).2 = [] ∧
     (drx_exit envW behW (drx_exit envW behW stD).1).1 =
       { (drx_exit envW behW stD).1 with
           drx_init_count := (drx_exit envW behW stD).1.drx_init_count - 1 }) :=
  ⟨by decide, by decide, C9_teardown_idempotent envW behW stD (by decide) (by decide)⟩

/-! ## Claim C10 -/

/-- C10 (confirmed): on the Unix variant only SYS_kill passes the filter;
a kill with a signal other than SIGKILL, an unresolvable pid, or the
caller itself produces no callback, no synthesized result and runs
unmodified; any syscall that produces an effect is a SYS_kill with signal
SIGKILL against a resolvable non-self pid; and the exit code handed to
the subscribers is SIGKILL shifted left by 8 bits. -/
theorem C10_unix_sigkill_only (beh : Nat → Nat → Int → Bool) (cbs : List Nat) :
    (∀ sysnum, soft_kills_filter_syscall_unix sysnum = true ↔ sysnum = SYS_kill) ∧
    (∀ (self_pid sysnum : Nat) (param : Nat → Nat), sysnum ≠ SYS_kill →
      soft_kills_pre_syscall_unix beh cbs self_pid sysnum param = (true, [])) ∧
    (∀ (self_pid : Nat) (param : Nat → Nat), toInt32 (param 1) ≠ SIGKILL →
      soft_kills_pre_syscall_unix beh cbs self_pid SYS_kill param = (true, [])) ∧
    (∀ (self_pid sysnum : Nat) (param : Nat → Nat),
      (soft_kills_pre_syscall_unix beh cbs self_pid sysnum param).2 ≠ [] →
      sysnum = SYS_kill ∧ toInt32 (param 1) = SIGKILL ∧
      param 0 % 2 ^ 64 ≠ INVALID_PROCESS_ID ∧ param 0 % 2 ^ 64 ≠ self_pid) ∧
    (∀ (self_pid : Nat) (param : Nat → Nat), toInt32 (param 1) = SIGKILL →
      param 0 % 2 ^ 64 ≠ INVALID_PROCESS_ID → param 0 % 2 ^ 64 ≠ self_pid →
      (soft_kills_pre_syscall_unix beh cbs self_pid SYS_kill param).2 =
        Effect.invokeCbs (param 0 % 2 ^ 64) (SIGKILL * 2 ^ 8) ::
          (if (soft_kills_invoke_cbs beh cbs (param 0 % 2 ^ 64) (SIGKILL * 2 ^ 8)).2
           then [Effect.setResult 0] else [])) := by
  refine ⟨?_, ?_, ?_, ?_, ?_⟩
  · intro sysnum
    simp [soft_kills_filter_syscall_unix]
  · intro self_pid sysnum param h
    simp [soft_kills_pre_syscall_unix, h]
  · intro self_pid param hs
    simp only [soft_kills_pre_syscall_unix]
    rw [if_pos trivial, if_neg (fun hcond => hs hcond.1)]
  · intro self_pid sysnum param hne
    by_cases h0 : sysnum = SYS_kill
    · subst h0
      refine ⟨rfl, ?_⟩
      by_cases hcond : toInt32 (param 1) = SIGKILL ∧
          param 0 % 2 ^ 64 ≠ INVALID_PROCESS_ID ∧ param 0 % 2 ^ 64 ≠ self_pid
      · exact hcond
      · exfalso
        apply hne
        simp only [soft_kills_pre_syscall_unix]
        rw [if_pos trivial, if_neg hcond]
    · exfalso
      apply hne
      simp [soft_kills_pre_syscall_unix, h0]
  · intro self_pid param hsig h1 h2
    simp only [soft_kills_pre_syscall_unix]
    rw [if_pos trivial, if_pos ⟨hsig, h1, h2⟩, hsig]
    cases hs : (soft_kills_invoke_cbs beh cbs (param 0 % 2 ^ 64) (SIGKILL * 2 ^ 8)).2 <;>
      simp

theorem C10_unix_sigkill_only_witness :
    soft_kills_filter_syscall_unix SYS_kill = true ∧
    ((fun _ => 5) : Nat → Nat) 1 = 5 ∧ toInt32 5 ≠ SIGKILL ∧
    soft_kills_pre_syscall_unix behW [0] 1 SYS_kill (fun _ => 5) = (true, []) ∧
    soft_kills_pre_syscall_unix behW [0] 1 (SYS_kill + 1) (fun _ => 5) = (true, []) :=
  ⟨by decide, rfl, by decide,
   (C10_unix_sigkill_only behW [0]).2.2.1 1 (fun _ => 5) (by decide),
   (C10_unix_sigkill_only behW [0]).2.1 1 (SYS_kill + 1) (fun _ => 5) (by decide)⟩

end Drx
